import Mathlib

/-!
Shallow embedding of the RoBA (GoBA) Game Boy Advance emulator core:
the ARM7TDMI register file (`internal/cpu/registers.go`), the ARM decoder
(`internal/cpu/arm_decode.go`, second variant), the ARM interpreter
(`internal/cpu/cpu.go` Step and the exec file with `execute_Arm`,
`execArm_*`, `calcOp2`, `applyShift`), and the memory bus
(`internal/bus/bus.go` with `internal/cartridge/cartridge.go`,
`internal/io/io_regs.go`, `internal/memory/*.go`, `internal/ppu/ppu.go`).

Go `uint32` values are modelled as `Nat` with explicit reduction modulo
`2^32` wherever the Go arithmetic wraps.  Go code that can panic
(out-of-bounds slice indexing, explicit `panic` calls) is modelled with
`Option`, a panic being `none`.
-/

namespace GoBA

/-- Reduction modulo 2^32, the implicit wrap-around of Go `uint32` arithmetic. -/
def mask32 (x : Nat) : Nat := x % 4294967296

/-- Go `uint32` subtraction `a - b` (two's-complement wrap-around). -/
def sub32 (a b : Nat) : Nat := (mask32 a + (4294967296 - mask32 b)) % 4294967296

/-- Go `uint32` bitwise complement `^x`. -/
def not32 (x : Nat) : Nat := 4294967295 - mask32 x

-- ARM7TDMI CPU operating modes (registers.go).
def USRMode : Nat := 0b10000
def FIQMode : Nat := 0b10001
def IRQMode : Nat := 0b10010
def SVCMode : Nat := 0b10011
def ABTMode : Nat := 0b10111
def UNDMode : Nat := 0b11011
def SYSMode : Nat := 0b11111

/-- The register file (struct `Registers` in registers.go).  The Go array
`R [13]uint32` is modelled as a function from index to value; all other
fields are carried over one-to-one. -/
structure Registers where
  R : Nat → Nat
  SP_usr : Nat
  LR_usr : Nat
  SP_svc : Nat
  LR_svc : Nat
  SP_abt : Nat
  LR_abt : Nat
  SP_und : Nat
  LR_und : Nat
  SP_irq : Nat
  LR_irq : Nat
  R8_fiq : Nat
  R9_fiq : Nat
  R10_fiq : Nat
  R11_fiq : Nat
  R12_fiq : Nat
  SP_fiq : Nat
  LR_fiq : Nat
  PC : Nat
  CPSR : Nat
  SPSR_svc : Nat
  SPSR_abt : Nat
  SPSR_und : Nat
  SPSR_irq : Nat
  SPSR_fiq : Nat
  currentMode : Nat

namespace Registers

/-- `GetMode` returns the current CPU operating mode from CPSR (low 5 bits). -/
def GetMode (r : Registers) : Nat := r.CPSR &&& 0x1F

/-- `SetMode` updates the CPSR mode bits (and the convenience tracker);
register banks are not shuffled. -/
def SetMode (r : Registers) (mode : Nat) : Registers :=
  if r.GetMode == mode then r
  else { r with CPSR := (r.CPSR &&& not32 0x1F) ||| mode, currentMode := mode }

/-- `GetReg` routed through the banking rules of registers.go.  The source
panics for `regNum > 15`; every caller passes a 4-bit field, so that branch
is unreachable and modelled by an arbitrary value 0. -/
def GetReg (r : Registers) (regNum : Nat) : Nat :=
  if regNum > 15 then 0
  else
    let mode := r.GetMode
    if regNum == 15 then r.PC
    else if mode == FIQMode && regNum == 8 then r.R8_fiq
    else if mode == FIQMode && regNum == 9 then r.R9_fiq
    else if mode == FIQMode && regNum == 10 then r.R10_fiq
    else if mode == FIQMode && regNum == 11 then r.R11_fiq
    else if mode == FIQMode && regNum == 12 then r.R12_fiq
    else if mode == FIQMode && regNum == 13 then r.SP_fiq
    else if mode == FIQMode && regNum == 14 then r.LR_fiq
    else if regNum == 13 then
      if mode == USRMode || mode == SYSMode then r.SP_usr
      else if mode == SVCMode then r.SP_svc
      else if mode == ABTMode then r.SP_abt
      else if mode == UNDMode then r.SP_und
      else if mode == IRQMode then r.SP_irq
      else r.SP_usr
    else if regNum == 14 then
      if mode == USRMode || mode == SYSMode then r.LR_usr
      else if mode == SVCMode then r.LR_svc
      else if mode == ABTMode then r.LR_abt
      else if mode == UNDMode then r.LR_und
      else if mode == IRQMode then r.LR_irq
      else r.LR_usr
    else r.R regNum

/-- `SetReg` routed through the banking rules of registers.go.  The source
panics for `regNum > 15`; unreachable from in-range callers, modelled as a
no-op. -/
def SetReg (r : Registers) (regNum : Nat) (value : Nat) : Registers :=
  if regNum > 15 then r
  else
    let mode := r.GetMode
    if regNum == 15 then { r with PC := value }
    else if mode == FIQMode && regNum == 8 then { r with R8_fiq := value }
    else if mode == FIQMode && regNum == 9 then { r with R9_fiq := value }
    else if mode == FIQMode && regNum == 10 then { r with R10_fiq := value }
    else if mode == FIQMode && regNum == 11 then { r with R11_fiq := value }
    else if mode == FIQMode && regNum == 12 then { r with R12_fiq := value }
    else if mode == FIQMode && regNum == 13 then { r with SP_fiq := value }
    else if mode == FIQMode && regNum == 14 then { r with LR_fiq := value }
    else if regNum == 13 then
      if mode == USRMode || mode == SYSMode then { r with SP_usr := value }
      else if mode == SVCMode then { r with SP_svc := value }
      else if mode == ABTMode then { r with SP_abt := value }
      else if mode == UNDMode then { r with SP_und := value }
      else if mode == IRQMode then { r with SP_irq := value }
      else { r with SP_usr := value }
    else if regNum == 14 then
      if mode == USRMode || mode == SYSMode then { r with LR_usr := value }
      else if mode == SVCMode then { r with LR_svc := value }
      else if mode == ABTMode then { r with LR_abt := value }
      else if mode == UNDMode then { r with LR_und := value }
      else if mode == IRQMode then { r with LR_irq := value }
      else { r with LR_usr := value }
    else { r with R := fun i => if i = regNum then value else r.R i }

/-- `GetSPSR` returns the SPSR bank of the current mode; 0 in USR/SYS
(where no SPSR exists) and 0 in the unreachable default branch. -/
def GetSPSR (r : Registers) : Nat :=
  if r.GetMode == FIQMode then r.SPSR_fiq
  else if r.GetMode == SVCMode then r.SPSR_svc
  else if r.GetMode == ABTMode then r.SPSR_abt
  else if r.GetMode == IRQMode then r.SPSR_irq
  else if r.GetMode == UNDMode then r.SPSR_und
  else if r.GetMode == USRMode || r.GetMode == SYSMode then 0
  else 0

/-- `SetSPSR` writes the SPSR bank of the current mode; a no-op in USR/SYS
and in the unreachable default branch. -/
def SetSPSR (r : Registers) (value : Nat) : Registers :=
  if r.GetMode == FIQMode then { r with SPSR_fiq := value }
  else if r.GetMode == SVCMode then { r with SPSR_svc := value }
  else if r.GetMode == ABTMode then { r with SPSR_abt := value }
  else if r.GetMode == IRQMode then { r with SPSR_irq := value }
  else if r.GetMode == UNDMode then { r with SPSR_und := value }
  else r

/-- T flag (CPSR bit 5). -/
def IsThumb (r : Registers) : Bool := ((r.CPSR >>> 5) &&& 1) == 1

/-- Set or clear the T flag. -/
def SetThumbState (r : Registers) (thumb : Bool) : Registers :=
  if thumb then { r with CPSR := r.CPSR ||| (1 <<< 5) }
  else { r with CPSR := r.CPSR &&& not32 (1 <<< 5) }

/-- N flag (CPSR bit 31). -/
def GetFlagN (r : Registers) : Bool := ((r.CPSR >>> 31) &&& 1) == 1

/-- Z flag (CPSR bit 30). -/
def GetFlagZ (r : Registers) : Bool := ((r.CPSR >>> 30) &&& 1) == 1

/-- C flag (CPSR bit 29). -/
def GetFlagC (r : Registers) : Bool := ((r.CPSR >>> 29) &&& 1) == 1

/-- V flag (CPSR bit 28). -/
def GetFlagV (r : Registers) : Bool := ((r.CPSR >>> 28) &&& 1) == 1

/-- Set or clear the N flag. -/
def SetFlagN (r : Registers) (set : Bool) : Registers :=
  if set then { r with CPSR := r.CPSR ||| (1 <<< 31) }
  else { r with CPSR := r.CPSR &&& not32 (1 <<< 31) }

/-- Set or clear the Z flag. -/
def SetFlagZ (r : Registers) (set : Bool) : Registers :=
  if set then { r with CPSR := r.CPSR ||| (1 <<< 30) }
  else { r with CPSR := r.CPSR &&& not32 (1 <<< 30) }

/-- Set or clear the C flag. -/
def SetFlagC (r : Registers) (set : Bool) : Registers :=
  if set then { r with CPSR := r.CPSR ||| (1 <<< 29) }
  else { r with CPSR := r.CPSR &&& not32 (1 <<< 29) }

/-- Set or clear the V flag. -/
def SetFlagV (r : Registers) (set : Bool) : Registers :=
  if set then { r with CPSR := r.CPSR ||| (1 <<< 28) }
  else { r with CPSR := r.CPSR &&& not32 (1 <<< 28) }

end Registers

/-! ## Bus and memory-mapped collaborators -/

/-- PPU display state (ppu.go); only the fields visible through the I/O
register reads modelled here. -/
structure PPU where
  VCount : Nat
  dispcnt : Nat

/-- `PPU.IsPPUIORegister` (ppu.go): the PPU claims I/O offsets 0x00-0x5F. -/
def PPU.IsPPUIORegister (addr : Nat) : Bool := addr ≤ 0x005F

/-- `PPU.ReadIORegister8` (ppu.go): DISPCNT and VCOUNT bytes, 0 otherwise. -/
def PPU.ReadIORegister8 (p : PPU) (addr : Nat) : Nat :=
  if addr == 0x0000 then p.dispcnt &&& 0xFF
  else if addr == 0x0001 then (p.dispcnt >>> 8) &&& 0xFF
  else if addr == 0x0006 then p.VCount &&& 0xFF
  else if addr == 0x0007 then (p.VCount >>> 8) &&& 0xFF
  else 0

/-- The bus (bus.go).  Fixed-size byte stores (`BIOS.data`, `EWRAM.data`,
`IWRAM.data`, `IORegs.regs`, `Cartridge.SRAM`) are modelled as functions
from offset to byte; the cartridge ROM is a byte list because its length
is the ROM image's and out-of-bounds indexing (a Go panic) must be
observable. -/
structure Bus where
  bios : Nat → Nat
  ewram : Nat → Nat
  iwram : Nat → Nat
  ioRegs : Nat → Nat
  ppu : PPU
  rom : List Nat
  sram : Nat → Nat
  CycleCount : Nat

/-- `IORegs.GetReg` (io_regs.go): indexing into the `[0x400]byte` array;
out of bounds is a Go panic. -/
def Bus.ioRegsGet (b : Bus) (addr : Nat) : Option Nat :=
  if addr < 0x400 then some (b.ioRegs addr) else none

/-- `IORegs.SetReg` (io_regs.go): write into the `[0x400]byte` array;
out of bounds is a Go panic. -/
def Bus.ioRegsSet (b : Bus) (addr value : Nat) : Option Bus :=
  if addr < 0x400 then
    some { b with ioRegs := fun i => if i = addr then value else b.ioRegs i }
  else none

/-- `Cartridge.ReadROM8` (cartridge.go): `c.ROM[addr]`, a plain slice index
of the byte slice at the given position; `none` models the panic when the
index is out of bounds. -/
def ReadROM8 (rom : List Nat) (addr : Nat) : Option Nat := rom.get? addr

/-- `Cartridge.ReadSRAM8` (cartridge.go): `c.SRAM[addr]` with
`len(SRAM) = SRAM_SIZE = 0x8000`. -/
def Bus.ReadSRAM8 (b : Bus) (addr : Nat) : Option Nat :=
  if addr < 0x8000 then some (b.sram addr) else none

/-- `Cartridge.WriteSRAM8` (cartridge.go). -/
def Bus.WriteSRAM8 (b : Bus) (addr value : Nat) : Option Bus :=
  if addr < 0x8000 then
    some { b with sram := fun i => if i = addr then value else b.sram i }
  else none

/-- `PPU.ReadPaletteRAM8` (ppu.go): delegates back into the bus's I/O
register file at `0x05000000 & 0x3FF + addr = addr`. -/
def Bus.ReadPaletteRAM8 (b : Bus) (addr : Nat) : Option Nat :=
  if addr < 0x400 then b.ioRegsGet (0x05000000 &&& 0x3FF + addr) else some 0

/-- `PPU.ReadVRAM8` (ppu.go): delegates back into the bus's I/O register
file at `0x06000000 & 0x1FFFF + addr = addr` (panics for `addr ≥ 0x400`). -/
def Bus.ReadVRAM8 (b : Bus) (addr : Nat) : Option Nat :=
  if addr < 0x18000 then b.ioRegsGet (0x06000000 &&& 0x1FFFF + addr) else some 0

/-- `PPU.WriteVRAM8` (ppu.go): same delegation on the write path. -/
def Bus.WriteVRAM8 (b : Bus) (addr value : Nat) : Option Bus :=
  if addr < 0x18000 then b.ioRegsSet (0x06000000 &&& 0x1FFFF + addr) value else some b

/-- `PPU.ReadOAM8` (ppu.go): unimplemented in the source, always 0. -/
def Bus.ReadOAM8 (_ : Bus) (_ : Nat) : Nat := 0

/-- `PPU.WriteOAM8` (ppu.go): unimplemented in the source, a no-op. -/
def Bus.WriteOAM8 (b : Bus) (_ : Nat) (_ : Nat) : Bus := b

/-- `Bus.Read8` (bus.go): region routing with mirror folding.  `none`
models the panics reachable through slice indexing (cartridge ROM reads
past the image, VRAM reads delegated out of the I/O array's bounds). -/
def Bus.Read8 (b : Bus) (addr : Nat) : Option Nat :=
  if addr ≤ 0x00003FFF then
    some (b.bios addr)
  else if 0x02000000 ≤ addr ∧ addr ≤ 0x02FFFFFF then
    some (b.ewram ((addr - 0x02000000) % 0x40000))
  else if 0x03000000 ≤ addr ∧ addr ≤ 0x03FFFFFF then
    some (b.iwram ((addr - 0x03000000) % 0x8000))
  else if 0x04000000 ≤ addr ∧ addr ≤ 0x04FFFFFF then
    let maskedAddr := (addr - 0x04000000) % 0x400
    if PPU.IsPPUIORegister maskedAddr then some (b.ppu.ReadIORegister8 maskedAddr)
    else if maskedAddr < 0x400 then b.ioRegsGet maskedAddr
    else some 0xFF
  else if 0x05000000 ≤ addr ∧ addr ≤ 0x05FFFFFF then
    b.ReadPaletteRAM8 ((addr - 0x05000000) % 0x400)
  else if 0x06000000 ≤ addr ∧ addr ≤ 0x06FFFFFF then
    b.ReadVRAM8 ((addr - 0x06000000) % 0x18000)
  else if 0x07000000 ≤ addr ∧ addr ≤ 0x07FFFFFF then
    some (b.ReadOAM8 ((addr - 0x07000000) % 0x400))
  else if (0x08000000 ≤ addr ∧ addr ≤ 0x09FFFFFF) ∨
          (0x0A000000 ≤ addr ∧ addr ≤ 0x0BFFFFFF) ∨
          (0x0C000000 ≤ addr ∧ addr ≤ 0x0DFFFFFF) then
    ReadROM8 b.rom addr
  else if 0x0E000000 ≤ addr ∧ addr ≤ 0x0E00FFFF then
    b.ReadSRAM8 (addr - 0x0E000000)
  else
    some 0xFF

/-- `Bus.Write8` (bus.go): note the write path covers only the base ranges
(no mirrors), drops writes to BIOS and ROM, and has no palette case. -/
def Bus.Write8 (b : Bus) (addr value : Nat) : Option Bus :=
  if addr ≤ 0x00003FFF then some b
  else if 0x02000000 ≤ addr ∧ addr ≤ 0x0203FFFF then
    some { b with ewram := fun i => if i = addr - 0x02000000 then value else b.ewram i }
  else if 0x03000000 ≤ addr ∧ addr ≤ 0x03007FFF then
    some { b with iwram := fun i => if i = addr - 0x03000000 then value else b.iwram i }
  else if 0x04000000 ≤ addr ∧ addr ≤ 0x040003FE then
    b.ioRegsSet (addr - 0x04000000) value
  else if 0x06000000 ≤ addr ∧ addr ≤ 0x06017FFF then
    b.WriteVRAM8 (addr - 0x06000000) value
  else if 0x07000000 ≤ addr ∧ addr ≤ 0x070003FF then
    some (b.WriteOAM8 (addr - 0x07000000) value)
  else if 0x08000000 ≤ addr ∧ addr ≤ 0x0DFFFFFF then some b
  else if 0x0E000000 ≤ addr ∧ addr ≤ 0x0E00FFFF then
    b.WriteSRAM8 (addr - 0x0E000000) value
  else some b

/-- `Bus.Read16` (bus.go): two byte reads combined little-endian. -/
def Bus.Read16 (b : Bus) (addr : Nat) : Option Nat := do
  let lo ← b.Read8 addr
  let hi ← b.Read8 (mask32 (addr + 1))
  pure ((hi <<< 8) ||| lo)

/-- `Bus.Read32` (bus.go): four byte reads combined little-endian. -/
def Bus.Read32 (b : Bus) (addr : Nat) : Option Nat := do
  let b0 ← b.Read8 addr
  let b1 ← b.Read8 (mask32 (addr + 1))
  let b2 ← b.Read8 (mask32 (addr + 2))
  let b3 ← b.Read8 (mask32 (addr + 3))
  pure ((b3 <<< 24) ||| (b2 <<< 16) ||| (b1 <<< 8) ||| b0)

/-- `Bus.Write32` (bus.go): four byte writes little-endian. -/
def Bus.Write32 (b : Bus) (addr value : Nat) : Option Bus := do
  let b ← b.Write8 addr (value &&& 0xFF)
  let b ← b.Write8 (mask32 (addr + 1)) ((value >>> 8) &&& 0xFF)
  let b ← b.Write8 (mask32 (addr + 2)) ((value >>> 16) &&& 0xFF)
  let b ← b.Write8 (mask32 (addr + 3)) ((value >>> 24) &&& 0xFF)
  pure b

/-! ## ARM decoder (arm_decode.go, the variant with the error-returning
`DecodeInstruction_Arm`) -/

/-- `ARMInstructionType` (arm_decode.go). -/
inductive ARMInstructionType where
  | DataProcessing
  | LoadStore
  | Branch
  | SWIType
  | BlockDataTransfer
  | Multiply
  | TransferMRS
  | TransferMSR
  | BranchExchange
  | Undefined
deriving DecidableEq, Repr

-- ARMDataProcessingOperation constants (arm_decode.go).
def AND : Nat := 0x0
def EOR : Nat := 0x1
def SUB : Nat := 0x2
def RSB : Nat := 0x3
def ADD : Nat := 0x4
def ADC : Nat := 0x5
def SBC : Nat := 0x6
def RSC : Nat := 0x7
def TST : Nat := 0x8
def TEQ : Nat := 0x9
def CMP : Nat := 0xA
def CMN : Nat := 0xB
def ORR : Nat := 0xC
def MOV : Nat := 0xD
def BIC : Nat := 0xE
def MVN : Nat := 0xF

-- ARMShiftType constants (arm_decode.go).
def LSL : Nat := 0x0
def LSR : Nat := 0x1
def ASR : Nat := 0x2
def ROR : Nat := 0x3

/-- `ARMInstruction` (arm_decode.go): one struct carrying the union of all
families' fields; unset fields keep the Go zero value. -/
structure ARMInstruction where
  typ : ARMInstructionType := .Undefined
  Cond : Nat := 0
  S : Bool := false
  OpcodeDP : Nat := 0
  Rn : Nat := 0
  Rd : Nat := 0
  Rm : Nat := 0
  Immediate : Nat := 0
  I : Bool := false
  ShiftType : Nat := 0
  ShiftImm : Nat := 0
  Rs : Nat := 0
  RotateImm : Nat := 0
  L : Bool := false
  P : Bool := false
  U : Bool := false
  B : Bool := false
  W : Bool := false
  Offset : Nat := 0
  OffsetBranch : Int := 0
  Link : Bool := false
  Exchange : Bool := false
  SWIComment : Nat := 0
  RegisterList : Nat := 0
  A : Bool := false
  RdHi : Nat := 0
  RdLo : Nat := 0
deriving DecidableEq, Repr

/-- `DecodeInstruction_Arm` (arm_decode.go): classifies a raw 32-bit word,
first matching pattern wins; `Except.error` models the Go error returns. -/
def DecodeInstruction_Arm (instruction : Nat) : Except String ARMInstruction :=
  let cond := (instruction >>> 28) &&& 0xF
  -- Type 1: Software Interrupt, requires the full top byte to be 0x0F.
  if (instruction >>> 24) &&& 0xFF == 0xF then
    .ok { typ := .SWIType, Cond := cond, SWIComment := instruction &&& 0xFFFFFF }
  -- Type 2: Branch and Exchange (BX, BLX register).
  else if (instruction &&& 0x0FFFFFF0 == 0x012FFF10) ||
          (instruction &&& 0x0FFFFFF0 == 0x012FFF30) then
    .ok { typ := .BranchExchange, Cond := cond, Rm := instruction &&& 0xF,
          Exchange := true, Link := (instruction >>> 5) &&& 0x1 == 1 }
  -- Type 3: Multiply and Multiply Long.
  else if ((instruction >>> 24) &&& 0xF == 0x0) && ((instruction >>> 4) &&& 0xF == 0x9) then
    let base : ARMInstruction :=
      { typ := .Multiply, Cond := cond,
        A := (instruction >>> 21) &&& 0x1 == 1,
        S := (instruction >>> 20) &&& 0x1 == 1 }
    if (instruction >>> 22) &&& 0x3 == 0x1 then
      .ok { base with RdHi := (instruction >>> 16) &&& 0xF,
                      RdLo := (instruction >>> 12) &&& 0xF,
                      Rs := (instruction >>> 8) &&& 0xF,
                      Rm := instruction &&& 0xF, Rn := 0 }
    else
      .ok { base with Rd := (instruction >>> 16) &&& 0xF,
                      Rn := (instruction >>> 12) &&& 0xF,
                      Rs := (instruction >>> 8) &&& 0xF,
                      Rm := instruction &&& 0xF }
  -- Type 4: PSR Transfer (MRS/MSR).
  else if (instruction &&& 0x0FB0F000 == 0x01000000) ||
          (instruction &&& 0x0FE00000 == 0x03200000) then
    if (instruction &&& 0x0FF000F0 == 0x01000000) && ((instruction >>> 21) &&& 0x7 == 0x5) then
      .ok { typ := .TransferMRS, Cond := cond, Rd := (instruction >>> 12) &&& 0xF }
    else if ((instruction >>> 21) &&& 0x7 == 0x4) || ((instruction >>> 21) &&& 0x7 == 0x6) then
      let base : ARMInstruction :=
        { typ := .TransferMSR, Cond := cond, I := (instruction >>> 25) &&& 0x1 == 1 }
      if base.I then
        let rot := (instruction >>> 8) &&& 0xF
        let imm8 := instruction &&& 0xFF
        .ok { base with RotateImm := rot,
                        Immediate := (imm8 >>> (rot * 2)) ||| mask32 (imm8 <<< (32 - rot * 2)) }
      else
        .ok { base with Rm := instruction &&& 0xF }
    else
      .error "unhandled PSR Transfer variant"
  -- Type 5: Data Processing.
  else if (instruction >>> 26) &&& 0x3 == 0x0 then
    let base : ARMInstruction :=
      { typ := .DataProcessing, Cond := cond,
        I := (instruction >>> 25) &&& 0x1 == 1,
        OpcodeDP := (instruction >>> 21) &&& 0xF,
        S := (instruction >>> 20) &&& 0x1 == 1,
        Rn := (instruction >>> 16) &&& 0xF,
        Rd := (instruction >>> 12) &&& 0xF }
    if base.I then
      let rot := (instruction >>> 8) &&& 0xF
      let imm8 := instruction &&& 0xFF
      .ok { base with RotateImm := rot,
                      Immediate := (imm8 >>> (rot * 2)) ||| mask32 (imm8 <<< (32 - rot * 2)) }
    else
      let base := { base with Rm := instruction &&& 0xF,
                              ShiftType := (instruction >>> 5) &&& 0x3 }
      if (instruction >>> 4) &&& 0x1 == 0 then
        .ok { base with ShiftImm := (instruction >>> 7) &&& 0x1F }
      else if (instruction >>> 7) &&& 0x1 ≠ 0 then
        .error "invalid instruction: bit 7 must be 0 for register shift"
      else
        .ok { base with Rs := (instruction >>> 8) &&& 0xF }
  -- Type 6: Load/Store Single Data Transfer.
  else if (instruction >>> 26) &&& 0x3 == 0x1 then
    let base : ARMInstruction :=
      { typ := .LoadStore, Cond := cond,
        P := (instruction >>> 24) &&& 0x1 == 1,
        U := (instruction >>> 23) &&& 0x1 == 1,
        B := (instruction >>> 22) &&& 0x1 == 1,
        W := (instruction >>> 21) &&& 0x1 == 1,
        L := (instruction >>> 20) &&& 0x1 == 1,
        Rn := (instruction >>> 16) &&& 0xF,
        Rd := (instruction >>> 12) &&& 0xF }
    if (instruction >>> 25) &&& 0x1 == 0 then
      .ok { base with Offset := instruction &&& 0xFFF }
    else if (instruction >>> 4) &&& 0x1 ≠ 0 then
      .error "invalid instruction: bit 4 must be 0 for register offset with shift in LDR/STR"
    else
      .ok { base with Rm := instruction &&& 0xF,
                      ShiftType := (instruction >>> 5) &&& 0x3,
                      ShiftImm := (instruction >>> 7) &&& 0x1F }
  -- Type 7: Block Data Transfer (LDM, STM).
  else if (instruction >>> 25) &&& 0x7 == 0x4 then
    .ok { typ := .BlockDataTransfer, Cond := cond,
          P := (instruction >>> 24) &&& 0x1 == 1,
          U := (instruction >>> 23) &&& 0x1 == 1,
          S := (instruction >>> 22) &&& 0x1 == 1,
          W := (instruction >>> 21) &&& 0x1 == 1,
          L := (instruction >>> 20) &&& 0x1 == 1,
          Rn := (instruction >>> 16) &&& 0xF,
          RegisterList := instruction &&& 0xFFFF }
  -- Type 8: Branch and Branch with Link (B, BL).
  else if (instruction >>> 25) &&& 0x7 == 0x5 then
    let raw := instruction &&& 0xFFFFFF
    let offsetBranch : Int :=
      if raw &&& 0x800000 ≠ 0 then (raw : Int) - 0x1000000 else (raw : Int)
    .ok { typ := .Branch, Cond := cond,
          Link := (instruction >>> 24) &&& 0x1 == 1,
          OffsetBranch := offsetBranch }
  else
    .error "unsupported or undefined ARM instruction"

/-! ## CPU interpreter (cpu.go `Step`, and the exec file with
`execute_Arm` and the `execArm_*` handlers) -/

/-- The CPU (struct `CPU` in cpu.go): register file, bus, cycle counter and
the two-slot prefetch pipeline. -/
structure CPU where
  Registers : Registers
  Bus : Bus
  Cycles : Nat
  Pipeline : Nat × Nat

/-- `checkCondition_Arm`: the 4-bit condition field evaluated against the
current N/Z/C/V flags. -/
def checkCondition_Arm (c : CPU) (cond : Nat) : Bool :=
  let n := c.Registers.GetFlagN
  let z := c.Registers.GetFlagZ
  let c_flag := c.Registers.GetFlagC
  let v := c.Registers.GetFlagV
  match cond with
  | 0x0 => z
  | 0x1 => !z
  | 0x2 => c_flag
  | 0x3 => !c_flag
  | 0x4 => n
  | 0x5 => !n
  | 0x6 => v
  | 0x7 => !v
  | 0x8 => c_flag && !z
  | 0x9 => !c_flag || z
  | 0xA => n == v
  | 0xB => n != v
  | 0xC => !z && (n == v)
  | 0xD => z || (n != v)
  | 0xE => true
  | 0xF => false
  | _ => false

/-- `checkOverflow` (cpu.go): the V-flag rule applied to the two register
operands and the result. -/
def checkOverflow (rn rm result : Nat) (opcode : Nat) : Bool :=
  if opcode == ADD || opcode == ADC || opcode == CMN then
    ((rn ^^^ result) &&& (rm ^^^ result) &&& 0x80000000) != 0
  else if opcode == SUB || opcode == SBC || opcode == CMP ||
          opcode == RSB || opcode == RSC then
    ((rn ^^^ rm) &&& (rn ^^^ result) &&& 0x80000000) != 0
  else false

/-- `setFlags` (cpu.go): N from bit 31 of the result, Z from result == 0,
C from the carry argument (the shifter carry), V via `checkOverflow` on the
register values re-read AFTER the destination write. -/
def setFlags (c : CPU) (result : Nat) (carryOut : Bool)
    (instruction : ARMInstruction) : CPU :=
  let regs := c.Registers.SetFlagN ((result &&& 0x80000000) != 0)
  let regs := regs.SetFlagZ (result == 0)
  let regs := regs.SetFlagC carryOut
  let regs :=
    if instruction.OpcodeDP == ADD || instruction.OpcodeDP == ADC ||
       instruction.OpcodeDP == SUB || instruction.OpcodeDP == SBC ||
       instruction.OpcodeDP == RSB || instruction.OpcodeDP == RSC ||
       instruction.OpcodeDP == CMP || instruction.OpcodeDP == CMN then
      let rn := regs.GetReg instruction.Rn
      let rm := regs.GetReg instruction.Rm
      regs.SetFlagV (checkOverflow rn rm result instruction.OpcodeDP)
    else
      regs.SetFlagV false
  { c with Registers := regs }

/-- The RRX computation of `applyShift`'s amount-0 ROR branch: bit 0 out to
carry, old C flag into bit 31. -/
def rrx (cFlag : Bool) (value : Nat) : Nat × Bool :=
  (((value >>> 1) ||| (if cFlag then 1 <<< 31 else 0)), (value &&& 0x1) == 1)

/-- `applyShift` (the exec file's carry-returning barrel shifter): returns
(shifted value, shifter carry-out).  Amount 0 leaves LSL/LSR/ASR untouched
with carry false; ROR amount 0 (and ROR multiples of 32, which the source
handles by recursing into the amount-0 branch) is RRX. -/
def applyShift (cFlag : Bool) (value : Nat) (shiftType : Nat)
    (shiftAmount : Nat) : Nat × Bool :=
  if shiftAmount == 0 then
    if shiftType == ROR then rrx cFlag value
    else (value, false)
  else if shiftType == LSL then
    if shiftAmount ≥ 32 then
      (0, if shiftAmount == 32 then (value &&& 0x1) == 1 else false)
    else
      (mask32 (value <<< shiftAmount), (value >>> (32 - shiftAmount)) &&& 0x1 == 1)
  else if shiftType == LSR then
    if shiftAmount ≥ 32 then
      (0, if shiftAmount == 32 then (value >>> 31) &&& 0x1 == 1 else false)
    else
      (value >>> shiftAmount, (value >>> (shiftAmount - 1)) &&& 0x1 == 1)
  else if shiftType == ASR then
    if shiftAmount ≥ 32 then
      if (value >>> 31) &&& 0x1 == 1 then (0xFFFFFFFF, true) else (0, false)
    else
      let carryOut := (value >>> (shiftAmount - 1)) &&& 0x1 == 1
      if value &&& 0x80000000 ≠ 0 then
        (mask32 ((value >>> shiftAmount) ||| mask32 (0xFFFFFFFF <<< (32 - shiftAmount))), carryOut)
      else
        (value >>> shiftAmount, carryOut)
  else if shiftType == ROR then
    let actualShift := shiftAmount % 32
    if actualShift == 0 then rrx cFlag value
    else
      (mask32 ((value >>> actualShift) ||| mask32 (value <<< (32 - actualShift))),
       (value >>> (actualShift - 1)) &&& 0x1 == 1)
  else (value, false)

/-- `calcOp2` (the exec file): resolves operand2 and the shifter carry.
Immediate: the decoder-rotated value, carry = its bit 31 when the rotate
was non-zero.  Register: Rm shifted by Rs (low 8 bits) when `Rs != 0`,
else by the immediate shift amount. -/
def calcOp2 (c : CPU) (instruction : ARMInstruction) : Nat × Bool :=
  if instruction.I then
    (instruction.Immediate,
     instruction.RotateImm ≠ 0 && (instruction.Immediate >>> 31) &&& 0x1 == 1)
  else
    let rmVal := c.Registers.GetReg instruction.Rm
    let shiftAmount :=
      if instruction.Rs ≠ 0 then c.Registers.GetReg instruction.Rs &&& 0xFF
      else instruction.ShiftImm
    applyShift c.Registers.GetFlagC rmVal instruction.ShiftType shiftAmount

/-- `execArm_Add`: computes Rn + op2 and stores the result back into
**Rn** (the source writes `SetReg(rn, result)` although its comment says
"Store result in the destination register (Rd)"). -/
def execArm_Add (c : CPU) (instruction : ARMInstruction) : CPU :=
  let rn := instruction.Rn
  let (op2, carryOut) := calcOp2 c instruction
  let result := mask32 (c.Registers.GetReg rn + op2)
  let c := { c with Registers := c.Registers.SetReg rn result }
  if instruction.S then setFlags c result carryOut instruction else c

/-- `execArm_Adc`: Rn + op2 + cy with the carry-in hardcoded to 0 (TODO in
the source); result stored into Rd. -/
def execArm_Adc (c : CPU) (instruction : ARMInstruction) : CPU :=
  let rn := instruction.Rn
  let (op2, carryOut) := calcOp2 c instruction
  let cy := 0
  let result := mask32 (c.Registers.GetReg rn + op2 + cy)
  let c := { c with Registers := c.Registers.SetReg instruction.Rd result }
  if instruction.S then setFlags c result carryOut instruction else c

/-- `execArm_Sbc`: Rn - op2 + cy - 1 with cy hardcoded to 0. -/
def execArm_Sbc (c : CPU) (instruction : ARMInstruction) : CPU :=
  let rn := instruction.Rn
  let (op2, carryOut) := calcOp2 c instruction
  let cy := 0
  let result := sub32 (mask32 (sub32 (c.Registers.GetReg rn) op2 + cy)) 1
  let c := { c with Registers := c.Registers.SetReg instruction.Rd result }
  if instruction.S then setFlags c result carryOut instruction else c

/-- `execArm_Rsc`: op2 - Rn + cy - 1 with cy hardcoded to 0. -/
def execArm_Rsc (c : CPU) (instruction : ARMInstruction) : CPU :=
  let rn := instruction.Rn
  let (op2, carryOut) := calcOp2 c instruction
  let cy := 0
  let result := sub32 (mask32 (sub32 op2 (c.Registers.GetReg rn) + cy)) 1
  let c := { c with Registers := c.Registers.SetReg instruction.Rd result }
  if instruction.S then setFlags c result carryOut instruction else c

/-- `execArm_Tst`: computes Rn AND op2 and discards it; no flag update. -/
def execArm_Tst (c : CPU) (instruction : ARMInstruction) : CPU :=
  let rn := instruction.Rn
  let (op2, _) := calcOp2 c instruction
  let _ := c.Registers.GetReg rn &&& op2
  c

/-- `execArm_Teq`: computes Rn XOR op2 and discards it; no flag update. -/
def execArm_Teq (c : CPU) (instruction : ARMInstruction) : CPU :=
  let rn := instruction.Rn
  let (op2, _) := calcOp2 c instruction
  let _ := c.Registers.GetReg rn ^^^ op2
  c

/-- `execArm_Cmp`: computes Rn - op2 and discards it; no flag update. -/
def execArm_Cmp (c : CPU) (instruction : ARMInstruction) : CPU :=
  let rn := instruction.Rn
  let (op2, _) := calcOp2 c instruction
  let _ := sub32 (c.Registers.GetReg rn) op2
  c

/-- `execArm_Cmn`: computes Rn + op2 and discards it; no flag update. -/
def execArm_Cmn (c : CPU) (instruction : ARMInstruction) : CPU :=
  let rn := instruction.Rn
  let (op2, _) := calcOp2 c instruction
  let _ := mask32 (c.Registers.GetReg rn + op2)
  c

/-- `execArm_Sub`: Rn - op2 into Rd. -/
def execArm_Sub (c : CPU) (instruction : ARMInstruction) : CPU :=
  let rn := instruction.Rn
  let (op2, carryOut) := calcOp2 c instruction
  let result := sub32 (c.Registers.GetReg rn) op2
  let c := { c with Registers := c.Registers.SetReg instruction.Rd result }
  if instruction.S then setFlags c result carryOut instruction else c

/-- `execArm_Rsb`: op2 - Rn into Rd. -/
def execArm_Rsb (c : CPU) (instruction : ARMInstruction) : CPU :=
  let rn := instruction.Rn
  let (op2, carryOut) := calcOp2 c instruction
  let result := sub32 op2 (c.Registers.GetReg rn)
  let c := { c with Registers := c.Registers.SetReg instruction.Rd result }
  if instruction.S then setFlags c result carryOut instruction else c

/-- `execArm_And`: Rn AND op2 into Rd; flags only when S and Rd ≠ 15. -/
def execArm_And (c : CPU) (instruction : ARMInstruction) : CPU :=
  let rn := instruction.Rn
  let (op2, carryOut) := calcOp2 c instruction
  let result := c.Registers.GetReg rn &&& op2
  let c := { c with Registers := c.Registers.SetReg instruction.Rd result }
  if instruction.S && instruction.Rd != 15 then setFlags c result carryOut instruction else c

/-- `execArm_Orr`: Rn OR op2 into Rd. -/
def execArm_Orr (c : CPU) (instruction : ARMInstruction) : CPU :=
  let rn := instruction.Rn
  let (op2, carryOut) := calcOp2 c instruction
  let result := c.Registers.GetReg rn ||| op2
  let c := { c with Registers := c.Registers.SetReg instruction.Rd result }
  if instruction.S then setFlags c result carryOut instruction else c

/-- `execArm_Mov`: op2 into Rd. -/
def execArm_Mov (c : CPU) (instruction : ARMInstruction) : CPU :=
  let (op2, carryOut) := calcOp2 c instruction
  let result := op2
  let c := { c with Registers := c.Registers.SetReg instruction.Rd result }
  if instruction.S then setFlags c result carryOut instruction else c

/-- `execArm_Bic`: Rn AND NOT op2 into Rd. -/
def execArm_Bic (c : CPU) (instruction : ARMInstruction) : CPU :=
  let (op2, carryOut) := calcOp2 c instruction
  let result := c.Registers.GetReg instruction.Rn &&& not32 op2
  let c := { c with Registers := c.Registers.SetReg instruction.Rd result }
  if instruction.S then setFlags c result carryOut instruction else c

/-- `execArm_Mvn`: NOT op2 into Rd. -/
def execArm_Mvn (c : CPU) (instruction : ARMInstruction) : CPU :=
  let (op2, carryOut) := calcOp2 c instruction
  let result := not32 op2
  let c := { c with Registers := c.Registers.SetReg instruction.Rd result }
  if instruction.S then setFlags c result carryOut instruction else c

/-- `execArm_Eor`: Rn XOR op2 into Rd. -/
def execArm_Eor (c : CPU) (instruction : ARMInstruction) : CPU :=
  let rn := instruction.Rn
  let (op2, carryOut) := calcOp2 c instruction
  let result := c.Registers.GetReg rn ^^^ op2
  let c := { c with Registers := c.Registers.SetReg instruction.Rd result }
  if instruction.S then setFlags c result carryOut instruction else c

/-- Go conversion `uint32(i)` of a (possibly negative) `int32` value. -/
def intToU32 (i : Int) : Nat := (i % (4294967296 : Int)).toNat

/-- `FlushPipeline` (cpu.go): refills the two pipeline slots from PC,
advancing PC by 4 after each fetch (so PC ends 8 past where it stood). -/
def FlushPipeline (c : CPU) : Option CPU := do
  let p0 ← c.Bus.Read32 c.Registers.PC
  let pc1 := mask32 (c.Registers.PC + 4)
  let p1 ← c.Bus.Read32 pc1
  pure { c with Pipeline := (p0, p1),
                Registers := { c.Registers with PC := mask32 (pc1 + 4) } }

/-- `execArm_Branch` (the exec file): re-checks a condition taken from bits
31:28 of `currentInstructionAddr` (the instruction's ADDRESS, not its
opcode); if it fails, PC := addr + 4 and the pipeline is flushed; if it
passes, target := addr + 8 + OffsetBranch (the 24-bit offset, sign-extended
but NOT shifted left by 2), R14 := addr + 4 when linking, then flush. -/
def execArm_Branch (c : CPU) (inst : ARMInstruction)
    (currentInstructionAddr : Nat) : Option CPU :=
  if !(checkCondition_Arm c ((currentInstructionAddr >>> 28) &&& 0xF)) then
    let c := { c with Registers :=
      { c.Registers with PC := mask32 (currentInstructionAddr + 4) } }
    FlushPipeline c
  else
    let targetAddress := mask32 (currentInstructionAddr + 8 + intToU32 inst.OffsetBranch)
    let c :=
      if inst.Link then
        { c with Registers := c.Registers.SetReg 14 (mask32 (currentInstructionAddr + 4)) }
      else c
    let c := { c with Registers := { c.Registers with PC := targetAddress } }
    FlushPipeline c

/-- `execArm_LoadStore` (the exec file): LDR/STR with the 12-bit immediate
offset.  Note the source negates the offset when U is TRUE. -/
def execArm_LoadStore (c : CPU) (inst : ARMInstruction)
    (_currentInstructionAddr : Nat) : Option CPU := do
  let baseAddr := c.Registers.GetReg inst.Rn
  let offset := inst.Offset
  let effectiveOffset := if inst.U then mask32 (not32 offset + 1) else offset
  let finalAddr := if inst.P then mask32 (baseAddr + effectiveOffset) else baseAddr
  let c ←
    if inst.L then do
      let loadedValue ←
        if inst.B then c.Bus.Read8 finalAddr else c.Bus.Read32 finalAddr
      let c := { c with Registers := c.Registers.SetReg inst.Rd loadedValue }
      if inst.Rd == 15 then
        let c :=
          if loadedValue &&& 0x1 ≠ 0 then
            let regs := c.Registers.SetThumbState true
            { c with Registers := { regs with PC := loadedValue &&& 0xFFFFFFFE } }
          else
            let regs := c.Registers.SetThumbState false
            { c with Registers := { regs with PC := loadedValue &&& 0xFFFFFFFC } }
        FlushPipeline c
      else pure c
    else do
      let valueToStore := c.Registers.GetReg inst.Rd
      let bus ←
        if inst.B then c.Bus.Write8 finalAddr (valueToStore &&& 0xFF)
        else c.Bus.Write32 finalAddr valueToStore
      pure { c with Bus := bus }
  if inst.W then
    if inst.P then
      pure { c with Registers := c.Registers.SetReg inst.Rn (mask32 (baseAddr + effectiveOffset)) }
    else
      pure { c with Registers := c.Registers.SetReg inst.Rn finalAddr }
  else pure c

/-- `execArm_SWI` (the exec file): supervisor entry; saves PC - 4 to R14
(after switching to SVC), CPSR to SPSR_svc, forces SVC mode and the I bit,
and jumps to vector 0x08. -/
def execArm_SWI (c : CPU) (_ : ARMInstruction) : CPU :=
  let regs := c.Registers.SetMode SVCMode
  let regs := regs.SetReg 14 (sub32 regs.PC 4)
  let regs := regs.SetSPSR regs.CPSR
  let regs := { regs with CPSR := (regs.CPSR &&& 0xFFFFFFE0) ||| 0x13 }
  let regs := { regs with CPSR := regs.CPSR ||| (1 <<< 7) }
  let regs := { regs with PC := 0x08 }
  { c with Registers := regs }

/-- One iteration of `execArm_BlockDataTransfer`'s register loop: transfer
register `i` when listed, then step the transfer address. -/
def bdtStep (inst : ARMInstruction) (currentInstructionAddr : Nat)
    (st : Nat × CPU) (i : Nat) : Option (Nat × CPU) := do
  let (addr, c) := st
  if (inst.RegisterList >>> i) &&& 1 ≠ 0 then
    let c ←
      if inst.L then do
        let val ← c.Bus.Read32 addr
        if i == 15 then
          let c := { c with Registers := c.Registers.SetReg 15 (val &&& 0xFFFFFFFC) }
          FlushPipeline c
        else
          pure { c with Registers := c.Registers.SetReg i val }
      else do
        let val :=
          if i == 15 then mask32 (currentInstructionAddr + 12)
          else c.Registers.GetReg i
        let bus ← c.Bus.Write32 addr val
        pure { c with Bus := bus }
    let addr := if inst.U then mask32 (addr + 4) else sub32 addr 4
    pure (addr, c)
  else pure (addr, c)

/-- `execArm_BlockDataTransfer` (the exec file): LDM/STM over the 16-bit
register list, ascending register order, with the initial address and the
written-back base derived from P/U and the register count. -/
def execArm_BlockDataTransfer (c : CPU) (inst : ARMInstruction)
    (currentInstructionAddr : Nat) : Option CPU := do
  let baseAddr := c.Registers.GetReg inst.Rn
  let numRegisters :=
    ((List.range 16).filter (fun i => (inst.RegisterList >>> i) &&& 1 ≠ 0)).length
  let currentTransferAddr :=
    if inst.U then
      if inst.P then mask32 (baseAddr + 4) else baseAddr
    else
      if inst.P then mask32 (sub32 baseAddr (numRegisters * 4) + 4) else baseAddr
  let finalBaseAddr :=
    if inst.U then mask32 (baseAddr + numRegisters * 4)
    else sub32 baseAddr (numRegisters * 4)
  let st ← (List.range 16).foldlM (bdtStep inst currentInstructionAddr)
    (currentTransferAddr, c)
  let c := st.2
  -- the S bit only triggers a log line in the source
  if inst.W then
    pure { c with Registers := c.Registers.SetReg inst.Rn finalBaseAddr }
  else pure c

/-- `execArm_Mrs` (the exec file): re-reads the raw opcode from the bus at
PC - 8 for the PSR-select bit, panics (here `none`) on an SPSR read in
USR/SYS mode, and writes the selected PSR to Rd. -/
def execArm_Mrs (c : CPU) (inst : ARMInstruction) : Option CPU := do
  let rawInstruction ← c.Bus.Read32 (sub32 c.Registers.PC 8)
  let psrSourceBit := (rawInstruction >>> 22) &&& 0x1
  let sourcePSR ←
    if psrSourceBit == 0 then pure c.Registers.CPSR
    else if c.Registers.GetMode == USRMode || c.Registers.GetMode == SYSMode then none
    else pure c.Registers.GetSPSR
  pure { c with Registers := c.Registers.SetReg inst.Rd sourcePSR }

-- PSR field-mask constants (the exec file).
def PSR_FLAGS : Nat := 0xFF000000
def PSR_STATUS : Nat := 0x00FF0000
def PSR_EXTENSION : Nat := 0x0000FF00
def PSR_CONTROL : Nat := 0x000000FF

/-- `execArm_Msr` (the exec file): re-reads the raw opcode at PC - 8,
computes the field-masked new PSR value into a local variable — and never
writes it back to CPSR or any SPSR (the final Go statement is
`targetPSR = newPSRValue` on a local copy).  The CPU state is returned
unchanged apart from the possibility of the bus read panicking. -/
def execArm_Msr (c : CPU) (inst : ARMInstruction) : Option CPU := do
  let rawInstruction ← c.Bus.Read32 (sub32 c.Registers.PC 8)
  let psrDestBit := (rawInstruction >>> 22) &&& 0x1
  let fieldMask := (rawInstruction >>> 16) &&& 0xF
  let writeFlags := (fieldMask >>> 3) &&& 0x1 == 1
  let writeStatus := (fieldMask >>> 2) &&& 0x1 == 1
  let writeExtension := (fieldMask >>> 1) &&& 0x1 == 1
  let writeControl := fieldMask &&& 0x1 == 1
  let operandValue :=
    if inst.I then inst.Immediate else c.Registers.GetReg inst.Rm
  let targetPSR ←
    if psrDestBit == 0 then pure c.Registers.CPSR
    else if c.Registers.GetMode == USRMode || c.Registers.GetMode == SYSMode then none
    else pure c.Registers.GetSPSR
  let currentPSRValue := targetPSR
  let newPSRValue := currentPSRValue
  let newPSRValue :=
    if writeFlags then (newPSRValue &&& not32 PSR_FLAGS) ||| (operandValue &&& PSR_FLAGS)
    else newPSRValue
  let newPSRValue :=
    if writeStatus then (newPSRValue &&& not32 PSR_STATUS) ||| (operandValue &&& PSR_STATUS)
    else newPSRValue
  let newPSRValue :=
    if writeExtension then (newPSRValue &&& not32 PSR_EXTENSION) ||| (operandValue &&& PSR_EXTENSION)
    else newPSRValue
  let newPSRValue :=
    if writeControl then
      if psrDestBit == 0 && c.Registers.GetMode == USRMode then newPSRValue
      else (newPSRValue &&& not32 PSR_CONTROL) ||| (operandValue &&& PSR_CONTROL)
    else newPSRValue
  let tBitOriginal := (currentPSRValue >>> 5) &&& 0x1
  let newPSRValue := (newPSRValue &&& not32 (1 <<< 5)) ||| (tBitOriginal <<< 5)
  let targetPSR := newPSRValue
  let _ := targetPSR
  pure c

/-- `execute_Arm` (the exec file): check the opcode's condition field,
decode, and dispatch; decode errors are logged and skipped; the Multiply
case falls through to MRS in the source; BranchExchange and Undefined fall
into the panicking default (`none`). -/
def execute_Arm (c : CPU) (instruction : Nat) : Option CPU :=
  let cond := (instruction >>> 28) &&& 0xF
  if !(checkCondition_Arm c cond) then some c
  else
    match DecodeInstruction_Arm instruction with
    | .error _ => some c
    | .ok inst =>
      match inst.typ with
      | .DataProcessing =>
        some
          (if inst.OpcodeDP == AND then execArm_And c inst
           else if inst.OpcodeDP == EOR then execArm_Eor c inst
           else if inst.OpcodeDP == SUB then execArm_Sub c inst
           else if inst.OpcodeDP == RSB then execArm_Rsb c inst
           else if inst.OpcodeDP == ADD then execArm_Add c inst
           else if inst.OpcodeDP == ADC then execArm_Adc c inst
           else if inst.OpcodeDP == SBC then execArm_Sbc c inst
           else if inst.OpcodeDP == RSC then execArm_Rsc c inst
           else if inst.OpcodeDP == TST then execArm_Tst c inst
           else if inst.OpcodeDP == TEQ then execArm_Teq c inst
           else if inst.OpcodeDP == CMP then execArm_Cmp c inst
           else if inst.OpcodeDP == CMN then execArm_Cmn c inst
           else if inst.OpcodeDP == ORR then execArm_Orr c inst
           else if inst.OpcodeDP == MOV then execArm_Mov c inst
           else if inst.OpcodeDP == BIC then execArm_Bic c inst
           else if inst.OpcodeDP == MVN then execArm_Mvn c inst
           else c)
      | .LoadStore => execArm_LoadStore c inst (sub32 c.Registers.PC 8)
      | .Branch => execArm_Branch c inst (sub32 c.Registers.PC 8)
      | .BlockDataTransfer => execArm_BlockDataTransfer c inst (sub32 c.Registers.PC 8)
      | .SWIType => some (execArm_SWI c inst)
      | .Multiply => execArm_Mrs c inst
      | .TransferMRS => execArm_Mrs c inst
      | .TransferMSR => execArm_Msr c inst
      | .BranchExchange => none
      | .Undefined => none

/-- `executeThumb` (cpu.go): only prints a message; no state change. -/
def executeThumb (c : CPU) (_ : Nat) : Option CPU := some c

/-- `Step` (cpu.go): fetch at PC through the bus (16-bit Thumb / 32-bit
ARM), advance PC by the instruction width, execute, bump the cycle
counter. -/
def Step (c : CPU) : Option CPU := do
  let c ←
    if c.Registers.IsThumb then do
      let instr ← c.Bus.Read16 c.Registers.PC
      let c := { c with Registers := { c.Registers with PC := mask32 (c.Registers.PC + 2) } }
      executeThumb c instr
    else do
      let instr ← c.Bus.Read32 c.Registers.PC
      let c := { c with Registers := { c.Registers with PC := mask32 (c.Registers.PC + 4) } }
      execute_Arm c instr
  pure { c with Cycles := c.Cycles + 1 }

/-! ## Concrete fixtures used by the claim theorems and witnesses -/

/-- The register file as `NewRegisters` builds it: everything zero, CPSR =
SVC mode with IRQ and FIQ disabled (0xD3). -/
def zeroRegisters : Registers where
  R := fun _ => 0
  SP_usr := 0
  LR_usr := 0
  SP_svc := 0
  LR_svc := 0
  SP_abt := 0
  LR_abt := 0
  SP_und := 0
  LR_und := 0
  SP_irq := 0
  LR_irq := 0
  R8_fiq := 0
  R9_fiq := 0
  R10_fiq := 0
  R11_fiq := 0
  R12_fiq := 0
  SP_fiq := 0
  LR_fiq := 0
  PC := 0
  CPSR := 0xD3
  SPSR_svc := 0
  SPSR_abt := 0
  SPSR_und := 0
  SPSR_irq := 0
  SPSR_fiq := 0
  currentMode := SVCMode

/-- A bus whose backing stores all read as zero and whose ROM image is
empty. -/
def emptyBus : Bus where
  bios := fun _ => 0
  ewram := fun _ => 0
  iwram := fun _ => 0
  ioRegs := fun _ => 0
  ppu := { VCount := 0, dispcnt := 0 }
  rom := []
  sram := fun _ => 0
  CycleCount := 0

/-- CPU fixture for the ADD destination claim: R1 = 5, SVC mode, flags
clear. -/
def cpuAddFx : CPU where
  Registers := { zeroRegisters with R := fun i => if i = 1 then 5 else 0 }
  Bus := emptyBus
  Cycles := 0
  Pipeline := (0, 0)

/-- CPU fixture for the CMP flags claim: R0 = 5, SVC mode, flags clear. -/
def cpuCmpFx : CPU where
  Registers := { zeroRegisters with R := fun i => if i = 0 then 5 else 0 }
  Bus := emptyBus
  Cycles := 0
  Pipeline := (0, 0)

/-- CPU fixture for the ADDS claim: R0 = 0x80000000, SVC mode, flags
clear. -/
def cpuAddsFx : CPU where
  Registers := { zeroRegisters with R := fun i => if i = 0 then 0x80000000 else 0 }
  Bus := emptyBus
  Cycles := 0
  Pipeline := (0, 0)

/-- A bus whose IWRAM holds the BL opcode 0xEB000002 (little-endian) at
offset 0 and zero elsewhere. -/
def blBus : Bus :=
  { emptyBus with iwram := fun off => if off = 0 then 0x02 else if off = 3 then 0xEB else 0 }

/-- CPU about to fetch the BL from IWRAM address 0x03000000; Z clear. -/
def cpuBlZ0 : CPU where
  Registers := { zeroRegisters with PC := 0x03000000 }
  Bus := blBus
  Cycles := 0
  Pipeline := (0, 0)

/-- Same as `cpuBlZ0` but with the Z flag set (so the EQ condition the
code wrongly derives from the instruction's address passes). -/
def cpuBlZ1 : CPU where
  Registers := { zeroRegisters with PC := 0x03000000, CPSR := 0xD3 ||| 0x40000000 }
  Bus := blBus
  Cycles := 0
  Pipeline := (0, 0)

/-- CPU fixture for the MSR claim: the raw MSR word at PC - 8 = 0x03000000
has the flags field (bit 19) selected and targets CPSR (bit 22 clear). -/
def cpuMsrFx : CPU where
  Registers := { zeroRegisters with PC := 0x03000008 }
  Bus := { emptyBus with iwram := fun off => if off = 2 then 0x08 else 0 }
  Cycles := 0
  Pipeline := (0, 0)

/-- The decoded MSR operand: immediate form with all four flag bits set. -/
def msrInstFx : ARMInstruction :=
  { typ := .TransferMSR, Cond := 0xE, I := true, Immediate := 0xF0000000 }

/-- CPU about to fetch `B` with condition EQ (0x0A000000) from IWRAM
address 0x03000000 while Z is clear, so the condition fails. -/
def cpuCondFailFx : CPU where
  Registers := { zeroRegisters with PC := 0x03000000 }
  Bus := { emptyBus with iwram := fun off => if off = 3 then 0x0A else 0 }
  Cycles := 0
  Pipeline := (0, 0)

/-- A bus whose cartridge ROM image is only three bytes long. -/
def busRom3 : Bus := { emptyBus with rom := [0x11, 0x22, 0x33] }

/-- A register file in user mode (CPSR mode bits = 0b10000). -/
def usrRegisters : Registers :=
  { zeroRegisters with CPSR := 0x10, currentMode := USRMode }

/-- The fold of a mirrored bus address into its region's base range:
base + (offset modulo the region's real size), per the routing of
`Bus.Read8`. -/
def mirrorFold (A : Nat) : Nat :=
  if 0x02000000 ≤ A ∧ A ≤ 0x02FFFFFF then 0x02000000 + (A - 0x02000000) % 0x40000
  else if 0x03000000 ≤ A ∧ A ≤ 0x03FFFFFF then 0x03000000 + (A - 0x03000000) % 0x8000
  else if 0x04000000 ≤ A ∧ A ≤ 0x04FFFFFF then 0x04000000 + (A - 0x04000000) % 0x400
  else if 0x05000000 ≤ A ∧ A ≤ 0x05FFFFFF then 0x05000000 + (A - 0x05000000) % 0x400
  else if 0x06000000 ≤ A ∧ A ≤ 0x06FFFFFF then 0x06000000 + (A - 0x06000000) % 0x18000
  else if 0x07000000 ≤ A ∧ A ≤ 0x07FFFFFF then 0x07000000 + (A - 0x07000000) % 0x400
  else A

/-- Membership in one of the mirrored bus regions (EWRAM, IWRAM, I/O,
palette RAM, VRAM, OAM). -/
def inMirror (A : Nat) : Prop :=
  (0x02000000 ≤ A ∧ A ≤ 0x02FFFFFF) ∨ (0x03000000 ≤ A ∧ A ≤ 0x03FFFFFF) ∨
  (0x04000000 ≤ A ∧ A ≤ 0x04FFFFFF) ∨ (0x05000000 ≤ A ∧ A ≤ 0x05FFFFFF) ∨
  (0x06000000 ≤ A ∧ A ≤ 0x06FFFFFF) ∨ (0x07000000 ≤ A ∧ A ≤ 0x07FFFFFF)

instance (A : Nat) : Decidable (inMirror A) := by
  unfold inMirror
  exact inferInstance

/-! ## Claim theorems -/

/-- C1: executing the data-processing instruction ADD R0, R1, #2
(0xE2810002) with R1 = 5 writes the result 7 back into the first-operand
register Rn = R1 and leaves the destination register Rd = R0 at 0 — the
opposite of the claim, which requires R0 = 7 and R1 unchanged. -/
theorem C1_add_writes_result_to_Rn :
    (execute_Arm cpuAddFx 0xE2810002).map
      (fun c => (c.Registers.GetReg 0, c.Registers.GetReg 1)) = some (0, 7) := by
  decide

/-- C2: executing CMP R0, R0 with S = 1 (0xE1500000) while R0 = 5 and all
flags are clear leaves the whole CPSR untouched (still 0xD3, Z = false),
although the claim requires Z = 1 because Rn equals operand2. -/
theorem C2_cmp_s1_leaves_flags_unchanged :
    (execute_Arm cpuCmpFx 0xE1500000).map
      (fun c => (c.Registers.GetFlagZ, c.Registers.CPSR)) = some (false, 0xD3) := by
  decide

/-- C3: executing ADDS R0, R0, R0 (0xE0900000) with R0 = 0x80000000 yields
R0 = 0, N = 0, Z = 1 as claimed, but C = 0 and V = 0 where the claim
requires C = 1 and V = 1. -/
theorem C3_adds_r0_flags :
    (execute_Arm cpuAddsFx 0xE0900000).map
      (fun c => (c.Registers.GetReg 0, c.Registers.GetFlagN, c.Registers.GetFlagZ,
                 c.Registers.GetFlagC, c.Registers.GetFlagV))
      = some (0, false, true, false, false) := by
  decide

/-- C4: one step on the always-executed BL 0xEB000002 fetched from address
0x03000000.  With Z clear the branch is not taken at all (the code
re-derives the condition from bits 31:28 of the instruction's address,
here 0 = EQ): R14_svc stays 0 and PC ends at 0x03000008.  With Z set the
"taken" path stores R14_svc = 0x03000000 (not address + 4) and ends with
PC = 0x0300000E, so the next fetch does not come from the claimed target
address + 8 + (offset << 2). -/
theorem C4_bl_step_wrong_condition_and_target :
    (Step cpuBlZ0).map (fun c => (c.Registers.LR_svc, c.Registers.PC))
        = some (0, 0x03000008) ∧
    (Step cpuBlZ1).map (fun c => (c.Registers.LR_svc, c.Registers.PC))
        = some (0x03000000, 0x0300000E) := by
  constructor
  · decide
  · decide

/-- C5: executing MSR CPSR_f, #0xF0000000 (raw word 0x00080000's field
mask selects the flags byte, the operand's bits 31:24 are 0xF0) returns
the machine state completely unchanged — CPSR keeps 0xD3, whose bits 31:24
are 0x00, so the field-mask update is never written back. -/
theorem C5_msr_never_writes_back :
    execArm_Msr cpuMsrFx msrInstFx = some cpuMsrFx := by
  rfl

/-- C6: the barrel shifter applied with LSR and immediate amount 0 returns
the value unshifted with carry-out false — not the claimed shift-by-32
result (0, bit 31); likewise ASR with amount 0 returns the value unshifted
instead of the sign-fill with carry bit 31. -/
theorem C6_lsr0_asr0_not_shift_by_32 :
    applyShift false 0x80000000 LSR 0 = (0x80000000, false) ∧
    applyShift false 0x80000000 ASR 0 = (0x80000000, false) := by
  exact ⟨rfl, rfl⟩

/-- C9: whenever the current CPSR mode is user or system, `GetSPSR`
returns 0 and `SetSPSR` is a no-op on the whole register file. -/
theorem C9_spsr_usr_sys_noop (r : Registers) (v : Nat)
    (h : r.GetMode = USRMode ∨ r.GetMode = SYSMode) :
    r.GetSPSR = 0 ∧ r.SetSPSR v = r := by
  rcases h with h | h <;>
    refine ⟨?_, ?_⟩ <;>
      simp [Registers.GetSPSR, Registers.SetSPSR, h, USRMode, SYSMode, FIQMode,
            SVCMode, ABTMode, IRQMode, UNDMode]

/-- C9 witness: a concrete user-mode register file on which the SPSR
accessors are evaluated. -/
theorem C9_spsr_usr_sys_noop_witness :
    (usrRegisters.GetMode = USRMode ∨ usrRegisters.GetMode = SYSMode) ∧
    usrRegisters.GetSPSR = 0 ∧ usrRegisters.SetSPSR 0xABCD = usrRegisters := by
  have h : usrRegisters.GetMode = USRMode := by decide
  exact ⟨Or.inl h, C9_spsr_usr_sys_noop usrRegisters 0xABCD (Or.inl h)⟩

/-- C10: every read in the cartridge ROM window 0x08000000-0x0DFFFFFF
indexes the ROM byte slice at the absolute bus address (not the
window-relative offset), and therefore returns `none` (the Go code panics)
whenever the ROM image is shorter than addr + 1 bytes. -/
theorem C10_rom_read_absolute_index (b : Bus) (addr : Nat)
    (h1 : 0x08000000 ≤ addr) (h2 : addr ≤ 0x0DFFFFFF) :
    b.Read8 addr = ReadROM8 b.rom addr ∧
    (b.rom.length ≤ addr → b.Read8 addr = none) := by
  have hbios : ¬(addr ≤ 0x00003FFF) := by omega
  have hew : ¬(0x02000000 ≤ addr ∧ addr ≤ 0x02FFFFFF) := by omega
  have hiw : ¬(0x03000000 ≤ addr ∧ addr ≤ 0x03FFFFFF) := by omega
  have hio : ¬(0x04000000 ≤ addr ∧ addr ≤ 0x04FFFFFF) := by omega
  have hpal : ¬(0x05000000 ≤ addr ∧ addr ≤ 0x05FFFFFF) := by omega
  have hvr : ¬(0x06000000 ≤ addr ∧ addr ≤ 0x06FFFFFF) := by omega
  have hoam : ¬(0x07000000 ≤ addr ∧ addr ≤ 0x07FFFFFF) := by omega
  have hrom : (0x08000000 ≤ addr ∧ addr ≤ 0x09FFFFFF) ∨
      (0x0A000000 ≤ addr ∧ addr ≤ 0x0BFFFFFF) ∨
      (0x0C000000 ≤ addr ∧ addr ≤ 0x0DFFFFFF) := by omega
  have hmain : b.Read8 addr = ReadROM8 b.rom addr := by
    unfold Bus.Read8
    rw [if_neg hbios, if_neg hew, if_neg hiw, if_neg hio, if_neg hpal,
        if_neg hvr, if_neg hoam, if_pos hrom]
  refine ⟨hmain, fun hlen => ?_⟩
  rw [hmain]
  unfold ReadROM8
  exact List.get?_eq_none.mpr hlen

/-- C10 witness: with a three-byte ROM image, the read at 0x08000000 is
out of bounds and returns `none`. -/
theorem C10_rom_read_absolute_index_witness :
    busRom3.Read8 0x08000000 = ReadROM8 busRom3.rom 0x08000000 ∧
    busRom3.Read8 0x08000000 = none := by
  have h := C10_rom_read_absolute_index busRom3 0x08000000 (by decide) (by decide)
  exact ⟨h.1, h.2 (by decide)⟩

/-- Mirror folding within the EWRAM range routes to the same byte. -/
theorem read8_fold_ewram (b : Bus) (A : Nat)
    (h : 0x02000000 ≤ A ∧ A ≤ 0x02FFFFFF) :
    b.Read8 A = b.Read8 (0x02000000 + (A - 0x02000000) % 0x40000) := by
  have hr : (A - 0x02000000) % 0x40000 < 0x40000 := Nat.mod_lt _ (by norm_num)
  unfold Bus.Read8
  rw [if_neg (show ¬(A ≤ 0x00003FFF) by omega), if_pos h,
      if_neg (show ¬(0x02000000 + (A - 0x02000000) % 0x40000 ≤ 0x00003FFF) by omega),
      if_pos (show 0x02000000 ≤ 0x02000000 + (A - 0x02000000) % 0x40000 ∧
                   0x02000000 + (A - 0x02000000) % 0x40000 ≤ 0x02FFFFFF by omega),
      show (0x02000000 + (A - 0x02000000) % 0x40000 - 0x02000000) % 0x40000
           = (A - 0x02000000) % 0x40000 by omega]

/-- Mirror folding within the IWRAM range routes to the same byte. -/
theorem read8_fold_iwram (b : Bus) (A : Nat)
    (h : 0x03000000 ≤ A ∧ A ≤ 0x03FFFFFF) :
    b.Read8 A = b.Read8 (0x03000000 + (A - 0x03000000) % 0x8000) := by
  have hr : (A - 0x03000000) % 0x8000 < 0x8000 := Nat.mod_lt _ (by norm_num)
  unfold Bus.Read8
  rw [if_neg (show ¬(A ≤ 0x00003FFF) by omega),
      if_neg (show ¬(0x02000000 ≤ A ∧ A ≤ 0x02FFFFFF) by omega), if_pos h,
      if_neg (show ¬(0x03000000 + (A - 0x03000000) % 0x8000 ≤ 0x00003FFF) by omega),
      if_neg (show ¬(0x02000000 ≤ 0x03000000 + (A - 0x03000000) % 0x8000 ∧
                     0x03000000 + (A - 0x03000000) % 0x8000 ≤ 0x02FFFFFF) by omega),
      if_pos (show 0x03000000 ≤ 0x03000000 + (A - 0x03000000) % 0x8000 ∧
                   0x03000000 + (A - 0x03000000) % 0x8000 ≤ 0x03FFFFFF by omega),
      show (0x03000000 + (A - 0x03000000) % 0x8000 - 0x03000000) % 0x8000
           = (A - 0x03000000) % 0x8000 by omega]

/-- Mirror folding within the I/O range routes to the same byte. -/
theorem read8_fold_io (b : Bus) (A : Nat)
    (h : 0x04000000 ≤ A ∧ A ≤ 0x04FFFFFF) :
    b.Read8 A = b.Read8 (0x04000000 + (A - 0x04000000) % 0x400) := by
  have hr : (A - 0x04000000) % 0x400 < 0x400 := Nat.mod_lt _ (by norm_num)
  unfold Bus.Read8
  rw [if_neg (show ¬(A ≤ 0x00003FFF) by omega),
      if_neg (show ¬(0x02000000 ≤ A ∧ A ≤ 0x02FFFFFF) by omega),
      if_neg (show ¬(0x03000000 ≤ A ∧ A ≤ 0x03FFFFFF) by omega), if_pos h,
      if_neg (show ¬(0x04000000 + (A - 0x04000000) % 0x400 ≤ 0x00003FFF) by omega),
      if_neg (show ¬(0x02000000 ≤ 0x04000000 + (A - 0x04000000) % 0x400 ∧
                     0x04000000 + (A - 0x04000000) % 0x400 ≤ 0x02FFFFFF) by omega),
      if_neg (show ¬(0x03000000 ≤ 0x04000000 + (A - 0x04000000) % 0x400 ∧
                     0x04000000 + (A - 0x04000000) % 0x400 ≤ 0x03FFFFFF) by omega),
      if_pos (show 0x04000000 ≤ 0x04000000 + (A - 0x04000000) % 0x400 ∧
                   0x04000000 + (A - 0x04000000) % 0x400 ≤ 0x04FFFFFF by omega),
      show (0x04000000 + (A - 0x04000000) % 0x400 - 0x04000000) % 0x400
           = (A - 0x04000000) % 0x400 by omega]

/-- Mirror folding within the palette-RAM range routes to the same byte. -/
theorem read8_fold_pal (b : Bus) (A : Nat)
    (h : 0x05000000 ≤ A ∧ A ≤ 0x05FFFFFF) :
    b.Read8 A = b.Read8 (0x05000000 + (A - 0x05000000) % 0x400) := by
  have hr : (A - 0x05000000) % 0x400 < 0x400 := Nat.mod_lt _ (by norm_num)
  unfold Bus.Read8
  rw [if_neg (show ¬(A ≤ 0x00003FFF) by omega),
      if_neg (show ¬(0x02000000 ≤ A ∧ A ≤ 0x02FFFFFF) by omega),
      if_neg (show ¬(0x03000000 ≤ A ∧ A ≤ 0x03FFFFFF) by omega),
      if_neg (show ¬(0x04000000 ≤ A ∧ A ≤ 0x04FFFFFF) by omega), if_pos h,
      if_neg (show ¬(0x05000000 + (A - 0x05000000) % 0x400 ≤ 0x00003FFF) by omega),
      if_neg (show ¬(0x02000000 ≤ 0x05000000 + (A - 0x05000000) % 0x400 ∧
                     0x05000000 + (A - 0x05000000) % 0x400 ≤ 0x02FFFFFF) by omega),
      if_neg (show ¬(0x03000000 ≤ 0x05000000 + (A - 0x05000000) % 0x400 ∧
                     0x05000000 + (A - 0x05000000) % 0x400 ≤ 0x03FFFFFF) by omega),
      if_neg (show ¬(0x04000000 ≤ 0x05000000 + (A - 0x05000000) % 0x400 ∧
                     0x05000000 + (A - 0x05000000) % 0x400 ≤ 0x04FFFFFF) by omega),
      if_pos (show 0x05000000 ≤ 0x05000000 + (A - 0x05000000) % 0x400 ∧
                   0x05000000 + (A - 0x05000000) % 0x400 ≤ 0x05FFFFFF by omega),
      show (0x05000000 + (A - 0x05000000) % 0x400 - 0x05000000) % 0x400
           = (A - 0x05000000) % 0x400 by omega]

/-- Mirror folding within the VRAM range routes to the same byte. -/
theorem read8_fold_vram (b : Bus) (A : Nat)
    (h : 0x06000000 ≤ A ∧ A ≤ 0x06FFFFFF) :
    b.Read8 A = b.Read8 (0x06000000 + (A - 0x06000000) % 0x18000) := by
  have hr : (A - 0x06000000) % 0x18000 < 0x18000 := Nat.mod_lt _ (by norm_num)
  unfold Bus.Read8
  rw [if_neg (show ¬(A ≤ 0x00003FFF) by omega),
      if_neg (show ¬(0x02000000 ≤ A ∧ A ≤ 0x02FFFFFF) by omega),
      if_neg (show ¬(0x03000000 ≤ A ∧ A ≤ 0x03FFFFFF) by omega),
      if_neg (show ¬(0x04000000 ≤ A ∧ A ≤ 0x04FFFFFF) by omega),
      if_neg (show ¬(0x05000000 ≤ A ∧ A ≤ 0x05FFFFFF) by omega), if_pos h,
      if_neg (show ¬(0x06000000 + (A - 0x06000000) % 0x18000 ≤ 0x00003FFF) by omega),
      if_neg (show ¬(0x02000000 ≤ 0x06000000 + (A - 0x06000000) % 0x18000 ∧
                     0x06000000 + (A - 0x06000000) % 0x18000 ≤ 0x02FFFFFF) by omega),
      if_neg (show ¬(0x03000000 ≤ 0x06000000 + (A - 0x06000000) % 0x18000 ∧
                     0x06000000 + (A - 0x06000000) % 0x18000 ≤ 0x03FFFFFF) by omega),
      if_neg (show ¬(0x04000000 ≤ 0x06000000 + (A - 0x06000000) % 0x18000 ∧
                     0x06000000 + (A - 0x06000000) % 0x18000 ≤ 0x04FFFFFF) by omega),
      if_neg (show ¬(0x05000000 ≤ 0x06000000 + (A - 0x06000000) % 0x18000 ∧
                     0x06000000 + (A - 0x06000000) % 0x18000 ≤ 0x05FFFFFF) by omega),
      if_pos (show 0x06000000 ≤ 0x06000000 + (A - 0x06000000) % 0x18000 ∧
                   0x06000000 + (A - 0x06000000) % 0x18000 ≤ 0x06FFFFFF by omega),
      show (0x06000000 + (A - 0x06000000) % 0x18000 - 0x06000000) % 0x18000
           = (A - 0x06000000) % 0x18000 by omega]

/-- Mirror folding within the OAM range routes to the same byte. -/
theorem read8_fold_oam (b : Bus) (A : Nat)
    (h : 0x07000000 ≤ A ∧ A ≤ 0x07FFFFFF) :
    b.Read8 A = b.Read8 (0x07000000 + (A - 0x07000000) % 0x400) := by
  have hr : (A - 0x07000000) % 0x400 < 0x400 := Nat.mod_lt _ (by norm_num)
  unfold Bus.Read8
  rw [if_neg (show ¬(A ≤ 0x00003FFF) by omega),
      if_neg (show ¬(0x02000000 ≤ A ∧ A ≤ 0x02FFFFFF) by omega),
      if_neg (show ¬(0x03000000 ≤ A ∧ A ≤ 0x03FFFFFF) by omega),
      if_neg (show ¬(0x04000000 ≤ A ∧ A ≤ 0x04FFFFFF) by omega),
      if_neg (show ¬(0x05000000 ≤ A ∧ A ≤ 0x05FFFFFF) by omega),
      if_neg (show ¬(0x06000000 ≤ A ∧ A ≤ 0x06FFFFFF) by omega), if_pos h,
      if_neg (show ¬(0x07000000 + (A - 0x07000000) % 0x400 ≤ 0x00003FFF) by omega),
      if_neg (show ¬(0x02000000 ≤ 0x07000000 + (A - 0x07000000) % 0x400 ∧
                     0x07000000 + (A - 0x07000000) % 0x400 ≤ 0x02FFFFFF) by omega),
      if_neg (show ¬(0x03000000 ≤ 0x07000000 + (A - 0x07000000) % 0x400 ∧
                     0x07000000 + (A - 0x07000000) % 0x400 ≤ 0x03FFFFFF) by omega),
      if_neg (show ¬(0x04000000 ≤ 0x07000000 + (A - 0x07000000) % 0x400 ∧
                     0x07000000 + (A - 0x07000000) % 0x400 ≤ 0x04FFFFFF) by omega),
      if_neg (show ¬(0x05000000 ≤ 0x07000000 + (A - 0x07000000) % 0x400 ∧
                     0x07000000 + (A - 0x07000000) % 0x400 ≤ 0x05FFFFFF) by omega),
      if_neg (show ¬(0x06000000 ≤ 0x07000000 + (A - 0x07000000) % 0x400 ∧
                     0x07000000 + (A - 0x07000000) % 0x400 ≤ 0x06FFFFFF) by omega),
      if_pos (show 0x07000000 ≤ 0x07000000 + (A - 0x07000000) % 0x400 ∧
                   0x07000000 + (A - 0x07000000) % 0x400 ≤ 0x07FFFFFF by omega),
      show (0x07000000 + (A - 0x07000000) % 0x400 - 0x07000000) % 0x400
           = (A - 0x07000000) % 0x400 by omega]

/-- C7: for every address A in a mirrored bus region (EWRAM, IWRAM, I/O,
palette RAM, VRAM, OAM), `Read8` returns the same byte at A and at the
fold of A into the region's base range. -/
theorem C7_read8_mirror_fold (b : Bus) (A : Nat) (h : inMirror A) :
    b.Read8 A = b.Read8 (mirrorFold A) := by
  unfold inMirror at h
  unfold mirrorFold
  rcases h with h | h | h | h | h | h
  · rw [if_pos h]
    exact read8_fold_ewram b A h
  · have h2 : ¬(0x02000000 ≤ A ∧ A ≤ 0x02FFFFFF) := by omega
    rw [if_neg h2, if_pos h]
    exact read8_fold_iwram b A h
  · have h2 : ¬(0x02000000 ≤ A ∧ A ≤ 0x02FFFFFF) := by omega
    have h3 : ¬(0x03000000 ≤ A ∧ A ≤ 0x03FFFFFF) := by omega
    rw [if_neg h2, if_neg h3, if_pos h]
    exact read8_fold_io b A h
  · have h2 : ¬(0x02000000 ≤ A ∧ A ≤ 0x02FFFFFF) := by omega
    have h3 : ¬(0x03000000 ≤ A ∧ A ≤ 0x03FFFFFF) := by omega
    have h4 : ¬(0x04000000 ≤ A ∧ A ≤ 0x04FFFFFF) := by omega
    rw [if_neg h2, if_neg h3, if_neg h4, if_pos h]
    exact read8_fold_pal b A h
  · have h2 : ¬(0x02000000 ≤ A ∧ A ≤ 0x02FFFFFF) := by omega
    have h3 : ¬(0x03000000 ≤ A ∧ A ≤ 0x03FFFFFF) := by omega
    have h4 : ¬(0x04000000 ≤ A ∧ A ≤ 0x04FFFFFF) := by omega
    have h5 : ¬(0x05000000 ≤ A ∧ A ≤ 0x05FFFFFF) := by omega
    rw [if_neg h2, if_neg h3, if_neg h4, if_neg h5, if_pos h]
    exact read8_fold_vram b A h
  · have h2 : ¬(0x02000000 ≤ A ∧ A ≤ 0x02FFFFFF) := by omega
    have h3 : ¬(0x03000000 ≤ A ∧ A ≤ 0x03FFFFFF) := by omega
    have h4 : ¬(0x04000000 ≤ A ∧ A ≤ 0x04FFFFFF) := by omega
    have h5 : ¬(0x05000000 ≤ A ∧ A ≤ 0x05FFFFFF) := by omega
    have h6 : ¬(0x06000000 ≤ A ∧ A ≤ 0x06FFFFFF) := by omega
    rw [if_neg h2, if_neg h3, if_neg h4, if_neg h5, if_neg h6, if_pos h]
    exact read8_fold_oam b A h

/-- C7 witness: the EWRAM mirror address 0x02A41234 reads the same byte as
its fold. -/
theorem C7_read8_mirror_fold_witness :
    inMirror 0x02A41234 ∧
    emptyBus.Read8 0x02A41234 = emptyBus.Read8 (mirrorFold 0x02A41234) := by
  exact ⟨by decide, C7_read8_mirror_fold emptyBus 0x02A41234 (by decide)⟩

/-- C8: a step that fetches an ARM instruction whose condition field fails
against the current flags changes nothing but the PC advancement by 4 done
during the fetch (and the cycle counter); registers, CPSR, banked
registers and memory are returned untouched. -/
theorem C8_cond_fail_only_pc_advances (c : CPU) (instr : Nat)
    (hthumb : c.Registers.IsThumb = false)
    (hfetch : c.Bus.Read32 c.Registers.PC = some instr)
    (hcond : checkCondition_Arm c ((instr >>> 28) &&& 0xF) = false) :
    Step c = some { c with
      Registers := { c.Registers with PC := mask32 (c.Registers.PC + 4) },
      Cycles := c.Cycles + 1 } := by
  have hc : checkCondition_Arm
      { c with Registers := { c.Registers with PC := mask32 (c.Registers.PC + 4) } }
      ((instr >>> 28) &&& 0xF) = false := hcond
  have hexec : execute_Arm
      { c with Registers := { c.Registers with PC := mask32 (c.Registers.PC + 4) } } instr
      = some { c with Registers := { c.Registers with PC := mask32 (c.Registers.PC + 4) } } := by
    simp only [execute_Arm]
    rw [hc]
    rfl
  have hgoal : Option.bind
      (execute_Arm
        { c with Registers := { c.Registers with PC := mask32 (c.Registers.PC + 4) } } instr)
      (fun y => some { y with Cycles := y.Cycles + 1 })
      = some { c with
          Registers := { c.Registers with PC := mask32 (c.Registers.PC + 4) },
          Cycles := c.Cycles + 1 } := by
    rw [hexec]
    rfl
  simp only [Step, hthumb, Bool.false_eq_true, if_false, hfetch]
  exact hgoal

/-- C8 witness: a concrete step on a conditional branch (condition EQ,
0x0A000000) with Z clear. -/
theorem C8_cond_fail_only_pc_advances_witness :
    cpuCondFailFx.Registers.IsThumb = false ∧
    cpuCondFailFx.Bus.Read32 cpuCondFailFx.Registers.PC = some 0x0A000000 ∧
    checkCondition_Arm cpuCondFailFx ((0x0A000000 >>> 28) &&& 0xF) = false ∧
    Step cpuCondFailFx = some { cpuCondFailFx with
      Registers := { cpuCondFailFx.Registers with
        PC := mask32 (cpuCondFailFx.Registers.PC + 4) },
      Cycles := cpuCondFailFx.Cycles + 1 } := by
  refine ⟨rfl, rfl, rfl, ?_⟩
  exact C8_cond_fail_only_pc_advances cpuCondFailFx 0x0A000000 rfl rfl rfl

end GoBA
